import Mathlib

/-!
Shallow embedding of the geotiles raster-ingestion core:
`ProcessingService.validateGeoTIFF` / `processGeoTIFF`
(src/services/ProcessingService.ts), the proj4 CRS bootstrap
(src/utils/proj4Utils.ts and the inline check in
src/components/MapViewer.tsx), the overlay attach/replace pipeline
`processGeoTiff` (src/components/MapViewer.tsx,
src/components/map/GeoTiffLayer.tsx), and the export helpers.
-/

/-! ## Raster metadata model (geotiff file directory, as read by the code) -/

/-- The fields of the TIFF file directory that `validateGeoTIFF` and the
`processGeoTiff` pipeline consult.  A JS `undefined` tag is `none`; a present
tag (an array value, always truthy in JS) is `some`. -/
structure FileDirectory where
  GeoKeyDirectory : Option (List Nat)
  ModelTiepoint : Option (List Int)
  ModelPixelScale : Option (List Int)
  SampleFormat : Option (List Nat)
  BitsPerSample : Option (List Nat)
deriving DecidableEq, Repr

/-- The parsed image as exposed by `tiff.getImage()`: the file directory plus
`getWidth()` / `getHeight()`. -/
structure TiffImage where
  fileDirectory : FileDirectory
  width : Int
  height : Int
deriving DecidableEq, Repr

/-- Result of `fromArrayBuffer(arrayBuffer)` followed by `getImage()`: either a
parsed image, or a thrown value.  A thrown `Error` carries `some message`; a
thrown non-`Error` value carries `none` (the code distinguishes them with
`instanceof Error`). -/
inductive ParseResult
  | ok (image : TiffImage)
  | thrown (message : Option String)
deriving DecidableEq, Repr

/-- The `{valid, error?}` record returned by `validateGeoTIFF`. -/
structure ValidationResult where
  valid : Bool
  error : Option String
deriving DecidableEq, Repr

/-- Tail of `validateGeoTIFF` (ProcessingService.ts lines 95-112): the raster
dimension check and the defaulted sample-format reads, reached whenever the
georeferencing early return did not fire. -/
def validateDimensions (image : TiffImage) : ValidationResult :=
  if image.width ≤ 0 ∨ image.height ≤ 0 then
    { valid := false, error := some "Invalid raster dimensions" }
  else
    { valid := true, error := none }

/-- `ProcessingService.validateGeoTIFF` (ProcessingService.ts lines 69-120).
The `thrown` branch is the surrounding `catch`; the `ok` branch follows the
source's control flow: the `GeoKeyDirectory` check with the
`ModelTiepoint`/`ModelPixelScale` fallback nested under it, then the
dimension check. -/
def validateGeoTIFF (parsed : ParseResult) : ValidationResult :=
  match parsed with
  | .thrown (some message) =>
      { valid := false, error := some ("Validation error: " ++ message) }
  | .thrown none =>
      { valid := false, error := some "Unknown error validating GeoTIFF" }
  | .ok image =>
      let fileDirectory := image.fileDirectory
      let geoKeys := fileDirectory.GeoKeyDirectory
      if geoKeys = none then
        let modelTiepoint := fileDirectory.ModelTiepoint
        let modelPixelScale := fileDirectory.ModelPixelScale
        if modelTiepoint = none ∧ modelPixelScale = none then
          { valid := false, error := some "Missing georeferencing information in GeoTIFF" }
        else
          validateDimensions image
      else
        validateDimensions image

/-- The `{success, data?, error?}` record returned by
`ProcessingService.processGeoTIFF`. -/
structure ProcessingResult where
  success : Bool
  data : Option (List Nat)
  error : Option String
deriving DecidableEq, Repr

/-- `ProcessingService.processGeoTIFF` (ProcessingService.ts lines 12-48),
given the outcome of `readFileAsArrayBuffer` (which rejects with a message on
read failure) and of parsing the resulting bytes.  On an invalid verdict the
error is `validationResult.error || "Invalid GeoTIFF format or missing
georeferencing information"`. -/
def processGeoTIFF (readResult : Except String (List Nat × ParseResult)) :
    ProcessingResult :=
  match readResult with
  | .error message => { success := false, data := none, error := some message }
  | .ok (arrayBuffer, parsed) =>
      let validationResult := validateGeoTIFF parsed
      if validationResult.valid = false then
        { success := false, data := none,
          error := some (validationResult.error.getD
            "Invalid GeoTIFF format or missing georeferencing information") }
      else
        { success := true, data := some arrayBuffer, error := none }

/-! ## Concrete metadata records used as inputs below -/

/-- A 1x1 raster whose file directory has a `ModelTiepoint` but neither a
`GeoKeyDirectory` nor a `ModelPixelScale`. -/
def tiepointOnlyImage : TiffImage :=
  { fileDirectory :=
      { GeoKeyDirectory := none, ModelTiepoint := some [0, 0, 0, 10, 20, 0],
        ModelPixelScale := none, SampleFormat := none, BitsPerSample := none },
    width := 1, height := 1 }

/-- A 512x512 raster carrying a `GeoKeyDirectory` and nothing else. -/
def geoKeysOnlyImage : TiffImage :=
  { fileDirectory :=
      { GeoKeyDirectory := some [1, 1, 0, 3], ModelTiepoint := none,
        ModelPixelScale := none, SampleFormat := none, BitsPerSample := none },
    width := 512, height := 512 }

/-- A raster with a `GeoKeyDirectory` but height 0. -/
def geoKeysZeroHeightImage : TiffImage :=
  { fileDirectory :=
      { GeoKeyDirectory := some [1, 1, 0, 3], ModelTiepoint := none,
        ModelPixelScale := none, SampleFormat := none, BitsPerSample := none },
    width := 512, height := 0 }

/-- A width-0 raster carrying no georeferencing tag at all. -/
def zeroWidthNoTagsImage : TiffImage :=
  { fileDirectory :=
      { GeoKeyDirectory := none, ModelTiepoint := none, ModelPixelScale := none,
        SampleFormat := none, BitsPerSample := none },
    width := 0, height := 5 }

/-- A raster carrying no georeferencing tag but positive dimensions. -/
def noTagsImage : TiffImage :=
  { fileDirectory :=
      { GeoKeyDirectory := none, ModelTiepoint := none, ModelPixelScale := none,
        SampleFormat := none, BitsPerSample := none },
    width := 64, height := 64 }

/-! ## C4: georeferencing acceptance -/

/-- C4 (counterexample).  The claim says a record with positive dimensions, no
geo-key directory and exactly one of the tie-point / pixel-scale tags is
rejected as missing georeferencing.  The code accepts it: `validateGeoTIFF`
only rejects when *both* fallback tags are absent (the check is
`!modelTiepoint && !modelPixelScale`), so a tie-point alone already passes. -/
theorem validateGeoTIFF_tiepoint_only_accepted :
    tiepointOnlyImage.fileDirectory.GeoKeyDirectory = none ∧
    tiepointOnlyImage.fileDirectory.ModelTiepoint ≠ none ∧
    tiepointOnlyImage.fileDirectory.ModelPixelScale = none ∧
    tiepointOnlyImage.width = 1 ∧ tiepointOnlyImage.height = 1 ∧
    validateGeoTIFF (.ok tiepointOnlyImage) = { valid := true, error := none } := by
  decide

/-- C4 (amended).  For a record with positive width and height, validation is
`Valid` exactly when a geo-key directory is present or at least one of the
tie-point / pixel-scale tags is present; it returns the missing-georeferencing
error precisely when all three are absent. -/
theorem validateGeoTIFF_georeferencing_characterization (image : TiffImage)
    (hw : 0 < image.width) (hh : 0 < image.height) :
    validateGeoTIFF (.ok image) =
      if image.fileDirectory.GeoKeyDirectory = none ∧
         image.fileDirectory.ModelTiepoint = none ∧
         image.fileDirectory.ModelPixelScale = none then
        { valid := false, error := some "Missing georeferencing information in GeoTIFF" }
      else
        { valid := true, error := none } := by
  have hdim : ¬ (image.width ≤ 0 ∨ image.height ≤ 0) := by omega
  by_cases hg : image.fileDirectory.GeoKeyDirectory = none
  · by_cases ht : image.fileDirectory.ModelTiepoint = none ∧
        image.fileDirectory.ModelPixelScale = none
    · simp [validateGeoTIFF, validateDimensions, hg, ht, hdim]
    · simp only [validateGeoTIFF, validateDimensions, hg, if_true, ht, if_false, hdim]
      simp [ht, hg]
  · simp [validateGeoTIFF, validateDimensions, hg, hdim]

/-- C4 (witness): the amended characterization evaluated on the concrete
geo-key-directory-only 512x512 record. -/
theorem validateGeoTIFF_georeferencing_characterization_witness :
    (0 : Int) < geoKeysOnlyImage.width ∧ (0 : Int) < geoKeysOnlyImage.height ∧
    validateGeoTIFF (.ok geoKeysOnlyImage) = { valid := true, error := none } :=
  ⟨by decide, by decide, by
    have h := validateGeoTIFF_georeferencing_characterization geoKeysOnlyImage
      (by decide) (by decide)
    simpa [geoKeysOnlyImage] using h⟩

/-! ## C5: degenerate dimensions -/

/-- C5 (counterexample).  The claim says every record with non-positive width
or height is rejected as `DegenerateDimensions`, including when no
georeferencing tag is present at all.  On a width-0 record with no tags the
code's georeferencing check fires first and returns the
missing-georeferencing error instead. -/
theorem validateGeoTIFF_zero_width_no_tags_reports_missing_georeferencing :
    zeroWidthNoTagsImage.width ≤ 0 ∧
    validateGeoTIFF (.ok zeroWidthNoTagsImage) =
      { valid := false, error := some "Missing georeferencing information in GeoTIFF" } ∧
    validateGeoTIFF (.ok zeroWidthNoTagsImage) ≠
      { valid := false, error := some "Invalid raster dimensions" } := by
  decide

/-- C5 (amended).  Whenever the georeferencing presence check passes (a
geo-key directory is present, or at least one of tie-point / pixel-scale is
present), non-positive width or height yields the dimension error — in
particular a present geo-key directory does not short-circuit the dimension
check.  When no georeferencing tag is present the missing-georeferencing
error takes priority over the dimension error. -/
theorem validateGeoTIFF_dimension_check (image : TiffImage)
    (hgeo : image.fileDirectory.GeoKeyDirectory ≠ none ∨
            image.fileDirectory.ModelTiepoint ≠ none ∨
            image.fileDirectory.ModelPixelScale ≠ none)
    (hdim : image.width ≤ 0 ∨ image.height ≤ 0) :
    validateGeoTIFF (.ok image) =
      { valid := false, error := some "Invalid raster dimensions" } := by
  by_cases hg : image.fileDirectory.GeoKeyDirectory = none
  · have ht : ¬ (image.fileDirectory.ModelTiepoint = none ∧
        image.fileDirectory.ModelPixelScale = none) := by tauto
    simp [validateGeoTIFF, validateDimensions, hg, ht, hdim]
  · simp [validateGeoTIFF, validateDimensions, hg, hdim]

/-- C5 (witness): the amended theorem evaluated on the concrete record with a
geo-key directory and height 0. -/
theorem validateGeoTIFF_dimension_check_witness :
    geoKeysZeroHeightImage.fileDirectory.GeoKeyDirectory ≠ none ∧
    geoKeysZeroHeightImage.height ≤ 0 ∧
    validateGeoTIFF (.ok geoKeysZeroHeightImage) =
      { valid := false, error := some "Invalid raster dimensions" } :=
  ⟨by decide, by decide,
    validateGeoTIFF_dimension_check geoKeysZeroHeightImage
      (Or.inl (by decide)) (Or.inr (by decide))⟩

/-! ## C6: distinct failure reasons -/

/-- Helper: a string starting with the validation-error marker differs from
the fixed missing-georeferencing message. -/
theorem validation_error_ne_missing_georeferencing (message : String) :
    "Validation error: " ++ message ≠ "Missing georeferencing information in GeoTIFF" := by
  intro h
  have h2 := congrArg String.data h
  simp [String.data_append] at h2

/-- Helper: a string starting with the validation-error marker differs from
the fixed invalid-dimensions message. -/
theorem validation_error_ne_invalid_dimensions (message : String) :
    "Validation error: " ++ message ≠ "Invalid raster dimensions" := by
  intro h
  have h2 := congrArg String.data h
  simp [String.data_append] at h2

/-- C6.  The three failure causes — structural parse failure (a thrown
`Error` during parsing), missing georeferencing, and non-positive dimensions
— surface through `processGeoTIFF` as three pairwise distinct reasons, and
the parse-failure reason carries the underlying thrown message verbatim
(appended after the fixed marker). -/
theorem processGeoTIFF_distinct_failure_reasons (bytes : List Nat)
    (message : String) (a b : TiffImage)
    (haGeo : a.fileDirectory.GeoKeyDirectory = none)
    (haTie : a.fileDirectory.ModelTiepoint = none)
    (haScale : a.fileDirectory.ModelPixelScale = none)
    (hbGeo : b.fileDirectory.GeoKeyDirectory ≠ none)
    (hbDim : b.width ≤ 0 ∨ b.height ≤ 0) :
    (processGeoTIFF (.ok (bytes, .thrown (some message)))).error =
      some ("Validation error: " ++ message) ∧
    (processGeoTIFF (.ok (bytes, .ok a))).error =
      some "Missing georeferencing information in GeoTIFF" ∧
    (processGeoTIFF (.ok (bytes, .ok b))).error =
      some "Invalid raster dimensions" ∧
    "Validation error: " ++ message ≠ "Missing georeferencing information in GeoTIFF" ∧
    "Validation error: " ++ message ≠ "Invalid raster dimensions" ∧
    "Missing georeferencing information in GeoTIFF" ≠ "Invalid raster dimensions" := by
  refine ⟨?_, ?_, ?_, validation_error_ne_missing_georeferencing message,
    validation_error_ne_invalid_dimensions message, by decide⟩
  · simp [processGeoTIFF, validateGeoTIFF]
  · simp [processGeoTIFF, validateGeoTIFF, haGeo, haTie, haScale]
  · have h := validateGeoTIFF_dimension_check b (Or.inl hbGeo) hbDim
    simp [processGeoTIFF, h]

/-- C6 (witness): the distinct-reasons theorem evaluated at a concrete parse
message, a concrete tag-free record and a concrete zero-height record. -/
theorem processGeoTIFF_distinct_failure_reasons_witness :
    (processGeoTIFF (.ok ([1, 2, 3], .thrown (some "not a TIFF")))).error =
      some ("Validation error: " ++ "not a TIFF") ∧
    (processGeoTIFF (.ok ([1, 2, 3], .ok noTagsImage))).error =
      some "Missing georeferencing information in GeoTIFF" ∧
    (processGeoTIFF (.ok ([1, 2, 3], .ok geoKeysZeroHeightImage))).error =
      some "Invalid raster dimensions" := by
  have h := processGeoTIFF_distinct_failure_reasons [1, 2, 3] "not a TIFF"
    noTagsImage geoKeysZeroHeightImage (by decide) (by decide) (by decide)
    (by decide) (Or.inr (by decide))
  exact ⟨h.1, h.2.1, h.2.2.1⟩

/-! ## The overlay attach/replace pipeline

`processGeoTiff` in src/components/MapViewer.tsx (and its twin in
src/components/map/GeoTiffLayer.tsx) mutates the shared leaflet map in
exactly two places, separated by `await` suspension points:

* at the start (lines 97-101): if `geoRasterLayerRef.current` is set and the
  map still has that layer, it calls `map.removeLayer` and nulls the ref;
* at the end (lines 157-164): after every `await` has resolved, it calls
  `layer.addTo(map)`, stores the new layer in the ref, and fits the bounds —
  with no `await` in between, so this block is atomic.

Every failure (parse error, missing georeferencing, georaster decode
failure, attach failure) lands in the `catch`, which only shows a toast:
no map state is restored.  There is no generation counter or any other
supersession marker. -/

/-- The shared map surface: the overlay layers currently attached to the
leaflet map (in attach order), and the component's `geoRasterLayerRef`. -/
structure MapSurface where
  layers : List Nat
  geoRasterLayerRef : Option Nat
deriving DecidableEq, Repr

/-- The state-mutating atomic steps of one `processGeoTiff` run. -/
inductive SurfaceAction
  | removeExisting
  | attach (layerId : Nat)
deriving DecidableEq, Repr

/-- Effect of one atomic step on the map surface.  `removeExisting` is the
guarded removal at the start of `processGeoTiff` (`if (ref.current &&
map.hasLayer(ref.current)) { map.removeLayer(...); ref.current = null }`);
`attach` is the final `layer.addTo(map); ref.current = layer` block. -/
def applyAction (s : MapSurface) : SurfaceAction → MapSurface
  | .removeExisting =>
      match s.geoRasterLayerRef with
      | some l =>
          if l ∈ s.layers then
            { layers := s.layers.erase l, geoRasterLayerRef := none }
          else s
      | none => s
  | .attach layerId =>
      { layers := s.layers ++ [layerId], geoRasterLayerRef := some layerId }

/-- Run a schedule of atomic steps on the surface. -/
def runActions (s : MapSurface) (schedule : List SurfaceAction) : MapSurface :=
  schedule.foldl applyAction s

/-- How one submission's `processGeoTiff` run ends.  The first four end in
the `catch` block before `layer.addTo(map)` is reached; `fitBoundsFailure`
throws in `getBounds`/`fitBounds` after the layer was already attached. -/
inductive SubmitOutcome
  | parseFailure
  | missingGeoreferencing
  | decodeFailure
  | attachFailure
  | fitBoundsFailure
  | success
deriving DecidableEq, Repr

/-- The sequence of state-mutating steps one `processGeoTiff` run performs,
by outcome: the guarded removal always runs first; the attach block runs
only when execution reaches it. -/
def submitSteps (layerId : Nat) : SubmitOutcome → List SurfaceAction
  | .parseFailure => [.removeExisting]
  | .missingGeoreferencing => [.removeExisting]
  | .decodeFailure => [.removeExisting]
  | .attachFailure => [.removeExisting]
  | .fitBoundsFailure => [.removeExisting, .attach layerId]
  | .success => [.removeExisting, .attach layerId]

/-- Outcomes in which the run fails after validation but before the attach
block (overlay construction/decoding failure or attach failure). -/
def postValidationPreAttachFailure : SubmitOutcome → Prop
  | .decodeFailure => True
  | .attachFailure => True
  | _ => False

/-- A surface operation at the granularity of whole (non-interleaved)
submissions, plus the map teardown that detaches everything. -/
inductive SurfaceOp
  | submit (layerId : Nat) (outcome : SubmitOutcome)
  | clear
deriving DecidableEq, Repr

/-- Run a sequence of whole submissions and clears, each submission's steps
executing to completion before the next operation starts. -/
def runOps (s : MapSurface) : List SurfaceOp → MapSurface
  | [] => s
  | .submit layerId outcome :: rest =>
      runOps (runActions s (submitSteps layerId outcome)) rest
  | .clear :: rest => runOps { layers := [], geoRasterLayerRef := none } rest

/-- The surface states reachable by non-interleaved runs: either empty, or
exactly one layer attached and referenced by the ref. -/
def TidySurface (s : MapSurface) : Prop :=
  (s.layers = [] ∧ s.geoRasterLayerRef = none) ∨
  (∃ l, s.layers = [l] ∧ s.geoRasterLayerRef = some l)

/-- An interleaving of two step sequences that preserves the order within
each: the schedules two concurrently running `processGeoTiff` invocations
can produce on the shared surface. -/
inductive Interleaves : List SurfaceAction → List SurfaceAction →
    List SurfaceAction → Prop
  | nil : Interleaves [] [] []
  | left {x : SurfaceAction} {xs ys zs : List SurfaceAction} :
      Interleaves xs ys zs → Interleaves (x :: xs) ys (x :: zs)
  | right {y : SurfaceAction} {xs ys zs : List SurfaceAction} :
      Interleaves xs ys zs → Interleaves xs (y :: ys) (y :: zs)

/-- On a tidy surface the guarded removal at the start of `processGeoTiff`
always leaves the surface empty. -/
theorem applyAction_removeExisting_of_tidy (s : MapSurface) (h : TidySurface s) :
    applyAction s .removeExisting = { layers := [], geoRasterLayerRef := none } := by
  rcases h with ⟨h1, h2⟩ | ⟨l, h1, h2⟩
  · have hs : s = { layers := [], geoRasterLayerRef := none } := by
      cases s; simp_all
    rw [hs]; rfl
  · have hs : s = { layers := [l], geoRasterLayerRef := some l } := by
      cases s; simp_all
    rw [hs]; simp [applyAction]

/-- A tidy surface stays tidy under one whole submission or clear. -/
theorem tidy_step (s : MapSurface) (op : SurfaceOp) (h : TidySurface s) :
    TidySurface (runOps s [op]) := by
  have hrem := applyAction_removeExisting_of_tidy s h
  cases op with
  | clear => exact Or.inl ⟨rfl, rfl⟩
  | submit layerId outcome =>
      cases outcome <;>
        simp only [runOps, runActions, submitSteps, List.foldl, hrem] <;>
        first
          | exact Or.inl ⟨rfl, rfl⟩
          | exact Or.inr ⟨layerId, rfl, rfl⟩

/-- A tidy surface stays tidy under any sequence of whole submissions and
clears. -/
theorem tidy_runOps (s : MapSurface) (ops : List SurfaceOp)
    (h : TidySurface s) : TidySurface (runOps s ops) := by
  induction ops generalizing s with
  | nil => simpa [runOps] using h
  | cons op rest ih =>
      have h1 : TidySurface (runOps s [op]) := tidy_step s op h
      cases op with
      | submit layerId outcome =>
          exact ih _ (by simpa [runOps] using h1)
      | clear => exact ih _ (by simpa [runOps] using h1)

/-! ## C1: effect of a failed replacement on the prior overlay -/

/-- C1 (counterexample).  With overlay 7 attached, a submission whose
processing fails after validation (here: during overlay decoding) leaves the
map surface with the prior overlay removed and nothing attached — not in its
pre-submission state.  The pipeline detaches the prior overlay at the start
of the run and the `catch` restores nothing. -/
theorem failed_replacement_destroys_prior_overlay :
    postValidationPreAttachFailure .decodeFailure ∧
    runActions { layers := [7], geoRasterLayerRef := some 7 }
        (submitSteps 9 .decodeFailure) =
      { layers := [], geoRasterLayerRef := none } ∧
    ({ layers := [], geoRasterLayerRef := none } : MapSurface) ≠
      { layers := [7], geoRasterLayerRef := some 7 } :=
  ⟨trivial, by decide, by decide⟩

/-- C1 (amended).  When a submission's processing fails after validation and
before the attach block (overlay decode failure or attach failure), the
surface ends with no overlay attached: the previously attached overlay was
already detached by the removal at the start of the run, so the surface ends
`Empty`, not in its pre-submission state. -/
theorem post_validation_failure_leaves_surface_empty (s : MapSurface)
    (layerId : Nat) (outcome : SubmitOutcome) (hs : TidySurface s)
    (hfail : postValidationPreAttachFailure outcome) :
    runActions s (submitSteps layerId outcome) =
      { layers := [], geoRasterLayerRef := none } := by
  have hrem := applyAction_removeExisting_of_tidy s hs
  cases outcome with
  | parseFailure => exact absurd hfail (by simp [postValidationPreAttachFailure])
  | missingGeoreferencing => exact absurd hfail (by simp [postValidationPreAttachFailure])
  | fitBoundsFailure => exact absurd hfail (by simp [postValidationPreAttachFailure])
  | success => exact absurd hfail (by simp [postValidationPreAttachFailure])
  | decodeFailure => simpa only [submitSteps, runActions, List.foldl] using hrem
  | attachFailure => simpa only [submitSteps, runActions, List.foldl] using hrem

/-- C1 (witness): the amended theorem evaluated on a surface holding overlay
7 and a submission that fails in the attach step. -/
theorem post_validation_failure_leaves_surface_empty_witness :
    runActions { layers := [7], geoRasterLayerRef := some 7 }
        (submitSteps 9 .attachFailure) =
      { layers := [], geoRasterLayerRef := none } :=
  post_validation_failure_leaves_surface_empty
    { layers := [7], geoRasterLayerRef := some 7 } 9 .attachFailure
    (Or.inr ⟨7, rfl, rfl⟩) trivial

/-! ## C2: supersession of an in-flight submission -/

/-- C2 (counterexample).  Submissions S1 (layer 1) then S2 (layer 2) both
succeed, with S1's asynchronous work completing after S2's: the schedule
interleaves the two runs so that S2's attach precedes S1's.  The late
result of S1 is applied, not discarded: layer 1 ends attached to the map and
is the current overlay ref — contradicting "the finally attached overlay is
the one produced by S2, never S1". -/
theorem stale_submission_result_is_applied :
    Interleaves (submitSteps 1 .success) (submitSteps 2 .success)
      [.removeExisting, .removeExisting, .attach 2, .attach 1] ∧
    (runActions { layers := [], geoRasterLayerRef := none }
        [.removeExisting, .removeExisting, .attach 2, .attach 1]).geoRasterLayerRef =
      some 1 ∧
    1 ∈ (runActions { layers := [], geoRasterLayerRef := none }
        [.removeExisting, .removeExisting, .attach 2, .attach 1]).layers :=
  ⟨by simp only [submitSteps]; exact .left (.right (.right (.left .nil))),
    by decide, by decide⟩

/-- C2 (amended).  There is no generation counter: in every interleaving of
two successful submissions S1 (layer 1) and S2 (layer 2) in which S1's run
completes after S2's (its attach is the last step), the superseded result is
applied — S1's layer is attached and becomes the current overlay ref. -/
theorem late_completion_applies_stale_result (sched : List SurfaceAction)
    (h : Interleaves (submitSteps 1 .success) (submitSteps 2 .success) sched)
    (hlast : sched.getLast? = some (.attach 1)) :
    (runActions { layers := [], geoRasterLayerRef := none }
        sched).geoRasterLayerRef = some 1 ∧
    1 ∈ (runActions { layers := [], geoRasterLayerRef := none } sched).layers := by
  simp only [submitSteps] at h
  revert hlast
  cases h with
  | left h1 =>
      cases h1 with
      | left h2 =>
          cases h2 with
          | right h3 =>
              cases h3 with
              | right h4 => cases h4; decide
      | right h2 =>
          cases h2 with
          | left h3 =>
              cases h3 with
              | right h4 => cases h4; decide
          | right h3 =>
              cases h3 with
              | left h4 => cases h4; decide
  | right h1 =>
      cases h1 with
      | left h2 =>
          cases h2 with
          | left h3 =>
              cases h3 with
              | right h4 => cases h4; decide
          | right h3 =>
              cases h3 with
              | left h4 => cases h4; decide
      | right h2 =>
          cases h2 with
          | left h3 =>
              cases h3 with
              | left h4 => cases h4; decide

/-- C2 (witness): the amended theorem evaluated at the concrete schedule in
which both submissions start, then S2 attaches, then S1 attaches. -/
theorem late_completion_applies_stale_result_witness :
    (runActions { layers := [], geoRasterLayerRef := none }
        [.removeExisting, .removeExisting, .attach 2, .attach 1]).geoRasterLayerRef =
      some 1 ∧
    1 ∈ (runActions { layers := [], geoRasterLayerRef := none }
        [.removeExisting, .removeExisting, .attach 2, .attach 1]).layers :=
  late_completion_applies_stale_result
    [.removeExisting, .removeExisting, .attach 2, .attach 1]
    (by simp only [submitSteps]; exact .left (.right (.right (.left .nil))))
    (by decide)

/-! ## C3: at most one attached overlay -/

/-- C3 (counterexample).  Starting from the empty surface, the legal
interleaving of two successful submissions in which both runs pass their
removal step before either attaches ends with two overlay layers attached to
the map surface at once. -/
theorem interleaving_attaches_two_overlays :
    Interleaves (submitSteps 1 .success) (submitSteps 2 .success)
      [.removeExisting, .removeExisting, .attach 2, .attach 1] ∧
    (runActions { layers := [], geoRasterLayerRef := none }
        [.removeExisting, .removeExisting, .attach 2, .attach 1]).layers = [2, 1] ∧
    2 ≤ (runActions { layers := [], geoRasterLayerRef := none }
        [.removeExisting, .removeExisting, .attach 2, .attach 1]).layers.length :=
  ⟨by simp only [submitSteps]; exact .left (.right (.right (.left .nil))),
    by decide, by decide⟩

/-- C3 (amended).  When submissions and clears execute without interleaving
(each submission's processing runs to completion before the next operation
starts), the number of overlay layers attached to the surface is always 0 or
1; the invariant fails only under interleaved in-flight submissions. -/
theorem at_most_one_overlay_sequential (ops : List SurfaceOp) :
    (runOps { layers := [], geoRasterLayerRef := none } ops).layers.length ≤ 1 := by
  have h := tidy_runOps { layers := [], geoRasterLayerRef := none } ops
    (Or.inl ⟨rfl, rfl⟩)
  rcases h with ⟨h1, _⟩ | ⟨l, h1, _⟩ <;> simp [h1]

/-! ## The proj4 CRS registry (src/utils/proj4Utils.ts and the inline check
in src/components/MapViewer.tsx) -/

/-- `proj4.defs(code, definitionStr)` on the module's definition table: a JS
object assignment keyed by the CRS code — an existing entry for the code is
overwritten in place, a new code is appended. -/
def upsertDef : List (String × String) → String → String → List (String × String)
  | [], code, definitionStr => [(code, definitionStr)]
  | p :: rest, code, definitionStr =>
      if p.1 = code then (code, definitionStr) :: rest
      else p :: upsertDef rest code definitionStr

/-- Lookup in the definition table. -/
def lookupDef (registry : List (String × String)) (code : String) : Option String :=
  (registry.find? (fun p => p.1 = code)).map Prod.snd

/-- `proj4.defs([[c1, d1], ...])`: register each pair in order. -/
def registerDefs (registry : List (String × String))
    (defs : List (String × String)) : List (String × String) :=
  defs.foldl (fun r p => upsertDef r p.1 p.2) registry

/-- The four projection definitions the code registers
(proj4Utils.ts lines 10-15, and again in MapViewer.tsx). -/
def commonProjections : List (String × String) :=
  [("EPSG:4326", "+proj=longlat +datum=WGS84 +no_defs"),
   ("EPSG:3857", "+proj=merc +a=6378137 +b=6378137 +lat_ts=0 +lon_0=0 +x_0=0 +y_0=0 +k=1 +units=m +nadgrids=@null +wktext +no_defs"),
   ("EPSG:32633", "+proj=utm +zone=33 +datum=WGS84 +units=m +no_defs"),
   ("EPSG:3785", "+proj=merc +a=6378137 +b=6378137 +lat_ts=0.0 +lon_0=0.0 +x_0=0.0 +y_0=0 +k=1.0 +units=m +nadgrids=@null +no_defs")]

/-- The observable shape of the value bound to `window.proj4`. -/
inductive Proj4Value
  | absent
  | notCallable
  | callableNoDefs
  | proj4Fn
  | wrapperFn
deriving DecidableEq, Repr

/-- `typeof window.proj4 === 'function'`:  true for the proj4 module
function, for the wrapper `initializeProj4` builds around it, and for any
other function (even one without a working `defs`). -/
def isFunction : Proj4Value → Bool
  | .absent => false
  | .notCallable => false
  | .callableNoDefs => true
  | .proj4Fn => true
  | .wrapperFn => true

/-- `typeof window.proj4.defs === 'function'`: whether the bound value
carries the working registration entry point. -/
def hasDefsFunction : Proj4Value → Bool
  | .absent => false
  | .notCallable => false
  | .callableNoDefs => false
  | .proj4Fn => true
  | .wrapperFn => true

/-- Process-wide CRS registration state: the value bound to `window.proj4`,
and the proj4 module's definition table — module state that survives
`window.proj4` being clobbered by unrelated code. -/
structure Proj4State where
  windowProj4 : Proj4Value
  registry : List (String × String)
deriving DecidableEq, Repr

/-- `initializeProj4` (src/utils/proj4Utils.ts lines 4-25): bind the proj4
module to `window.proj4`, register the common projections, then replace
`window.proj4` with a fresh wrapper function that forwards calls to the
module and carries the module's `defs`. -/
def initializeProj4 (s : Proj4State) : Proj4State :=
  let s1 : Proj4State := { s with windowProj4 := .proj4Fn }
  let s2 : Proj4State := { s1 with registry := registerDefs s1.registry commonProjections }
  { s2 with windowProj4 := .wrapperFn }

/-- The readiness re-check inlined in `processGeoTiff`
(src/components/MapViewer.tsx lines 103-119), run before the overlay attach:
if `window.proj4` is not a function it is restored from the proj4 module,
and only if the restored value still lacks a `defs` function are the common
projections re-registered. -/
def ensureProj4 (s : Proj4State) : Proj4State :=
  if isFunction s.windowProj4 = false then
    let s1 : Proj4State := { s with windowProj4 := .proj4Fn }
    if hasDefsFunction s1.windowProj4 = false then
      { windowProj4 := .proj4Fn, registry := registerDefs s1.registry commonProjections }
    else s1
  else s

/-- Upserting a code finds it afterwards with the upserted definition. -/
theorem lookupDef_upsertDef_self (registry : List (String × String))
    (code definitionStr : String) :
    lookupDef (upsertDef registry code definitionStr) code = some definitionStr := by
  induction registry with
  | nil => simp [upsertDef, lookupDef]
  | cons p rest ih =>
      by_cases h : p.1 = code
      · simp [upsertDef, lookupDef, h]
      · simpa [upsertDef, lookupDef, h] using ih

/-- Upserting one code does not change the lookup of another. -/
theorem lookupDef_upsertDef_ne (registry : List (String × String))
    (code definitionStr other : String) (h : other ≠ code) :
    lookupDef (upsertDef registry code definitionStr) other =
      lookupDef registry other := by
  have hco : code ≠ other := fun he => h he.symm
  induction registry with
  | nil => simp [upsertDef, lookupDef, hco]
  | cons p rest ih =>
      by_cases hp : p.1 = code
      · have hpo : p.1 ≠ other := by rw [hp]; exact hco
        simp [upsertDef, lookupDef, hp, hpo, hco]
      · by_cases hpo : p.1 = other
        · simp [upsertDef, lookupDef, hp, hpo, h, hco]
        · simpa [upsertDef, lookupDef, hp, hpo, h, hco] using ih

/-- Re-registering a code with the definition it already maps to is a no-op
on the table. -/
theorem upsertDef_of_lookupDef_eq (registry : List (String × String))
    (code definitionStr : String)
    (h : lookupDef registry code = some definitionStr) :
    upsertDef registry code definitionStr = registry := by
  induction registry with
  | nil => simp [lookupDef] at h
  | cons p rest ih =>
      by_cases hp : p.1 = code
      · have hval : p.2 = definitionStr := by
          simpa [lookupDef, hp] using h
        have : p = (code, definitionStr) := by
          cases p; simp_all
        simp [upsertDef, hp, this]
      · have h' : lookupDef rest code = some definitionStr := by
          simpa [lookupDef, hp] using h
        simp [upsertDef, hp, ih h']

/-- After registering the common projections, each of the four codes maps to
its definition, whatever the registry held before. -/
theorem lookupDef_registerDefs_commonProjections (r : List (String × String)) :
    ∀ cd ∈ commonProjections,
      lookupDef (registerDefs r commonProjections) cd.1 = some cd.2 := by
  intro cd hcd
  simp only [commonProjections, List.mem_cons, List.not_mem_nil, or_false] at hcd
  simp only [registerDefs, commonProjections, List.foldl]
  rcases hcd with h | h | h | h <;> subst h
  · rw [lookupDef_upsertDef_ne _ _ _ _ (by decide),
        lookupDef_upsertDef_ne _ _ _ _ (by decide),
        lookupDef_upsertDef_ne _ _ _ _ (by decide),
        lookupDef_upsertDef_self]
  · rw [lookupDef_upsertDef_ne _ _ _ _ (by decide),
        lookupDef_upsertDef_ne _ _ _ _ (by decide),
        lookupDef_upsertDef_self]
  · rw [lookupDef_upsertDef_ne _ _ _ _ (by decide),
        lookupDef_upsertDef_self]
  · rw [lookupDef_upsertDef_self]

/-- Registering the common projections a second time is a no-op on the
table. -/
theorem registerDefs_commonProjections_idem (r : List (String × String)) :
    registerDefs (registerDefs r commonProjections) commonProjections =
      registerDefs r commonProjections := by
  have h := lookupDef_registerDefs_commonProjections r
  have h1 := h ("EPSG:4326", "+proj=longlat +datum=WGS84 +no_defs")
    (by simp [commonProjections])
  have h2 := h ("EPSG:3857", "+proj=merc +a=6378137 +b=6378137 +lat_ts=0 +lon_0=0 +x_0=0 +y_0=0 +k=1 +units=m +nadgrids=@null +wktext +no_defs")
    (by simp [commonProjections])
  have h3 := h ("EPSG:32633", "+proj=utm +zone=33 +datum=WGS84 +units=m +no_defs")
    (by simp [commonProjections])
  have h4 := h ("EPSG:3785", "+proj=merc +a=6378137 +b=6378137 +lat_ts=0.0 +lon_0=0.0 +x_0=0.0 +y_0=0 +k=1.0 +units=m +nadgrids=@null +no_defs")
    (by simp [commonProjections])
  dsimp only at h1 h2 h3 h4
  generalize hR : registerDefs r commonProjections = R at h1 h2 h3 h4 ⊢
  simp only [registerDefs, commonProjections, List.foldl]
  rw [upsertDef_of_lookupDef_eq _ _ _ h1, upsertDef_of_lookupDef_eq _ _ _ h2,
      upsertDef_of_lookupDef_eq _ _ _ h3, upsertDef_of_lookupDef_eq _ _ _ h4]

/-- Running `initializeProj4` twice equals running it once. -/
theorem initializeProj4_idem (s : Proj4State) :
    initializeProj4 (initializeProj4 s) = initializeProj4 s := by
  simp [initializeProj4, registerDefs_commonProjections_idem]

/-! ## C7: idempotent CRS registration -/

/-- C7.  Calling `initializeProj4` N times (N ≥ 1) leaves the registration
state — the definition table and the `window.proj4` binding — exactly as one
call leaves it, and re-registering a code with the definition it already
maps to is a no-op on the resulting table. -/
theorem initializeProj4_idempotent (s : Proj4State) (n : Nat) (hn : 1 ≤ n) :
    initializeProj4^[n] s = initializeProj4 s ∧
    (initializeProj4^[n] s).windowProj4 = (initializeProj4 s).windowProj4 ∧
    (∀ code definitionStr,
      lookupDef (initializeProj4 s).registry code = some definitionStr →
      upsertDef (initializeProj4 s).registry code definitionStr =
        (initializeProj4 s).registry) := by
  have hiter : initializeProj4^[n] s = initializeProj4 s := by
    obtain ⟨m, rfl⟩ : ∃ m, n = m + 1 := ⟨n - 1, by omega⟩
    clear hn
    induction m with
    | zero => rfl
    | succ k ih =>
        rw [Function.iterate_succ_apply', ih, initializeProj4_idem]
  exact ⟨hiter, by rw [hiter],
    fun code definitionStr h => upsertDef_of_lookupDef_eq _ _ _ h⟩

/-- C7 (witness): three calls from a blank state equal one call. -/
theorem initializeProj4_idempotent_witness :
    initializeProj4^[3] { windowProj4 := .absent, registry := [] } =
      initializeProj4 { windowProj4 := .absent, registry := [] } :=
  (initializeProj4_idempotent { windowProj4 := .absent, registry := [] } 3
    (by decide)).1

/-! ## C8: detect-and-repair of the proj4 host object -/

/-- C8 (counterexample).  A `window.proj4` that is callable but lacks a
working `defs` function is a non-functional registration mechanism, yet the
readiness check run before the attach in `processGeoTiff` only tests
`typeof window.proj4 !== 'function'`: it does not detect this state and
repairs nothing — no re-initialization runs. -/
theorem ensureProj4_misses_broken_defs :
    isFunction .callableNoDefs = true ∧
    hasDefsFunction .callableNoDefs = false ∧
    ensureProj4 { windowProj4 := .callableNoDefs, registry := [] } =
      { windowProj4 := .callableNoDefs, registry := [] } ∧
    hasDefsFunction (ensureProj4
      { windowProj4 := .callableNoDefs, registry := [] }).windowProj4 = false := by
  exact ⟨rfl, rfl, by decide, by decide⟩

/-- C8 (amended).  The readiness check run before the overlay attach in
`processGeoTiff` detects a `window.proj4` that is missing or not callable
and repairs it in one pass by restoring the proj4 module function, which is
callable and has a working `defs`; that repair does not itself re-register
the projection definitions (the module's table is left as it was).  A
`window.proj4` that is callable but without a working `defs` escapes this
check.  The `GeoTiffLayer` attach path instead calls `initializeProj4`
unconditionally, which always leaves a callable binding with a working
`defs` and every common projection registered. -/
theorem proj4_detect_and_repair (s : Proj4State)
    (hbroken : isFunction s.windowProj4 = false) :
    (ensureProj4 s).windowProj4 = .proj4Fn ∧
    isFunction (ensureProj4 s).windowProj4 = true ∧
    hasDefsFunction (ensureProj4 s).windowProj4 = true ∧
    (ensureProj4 s).registry = s.registry ∧
    isFunction (initializeProj4 s).windowProj4 = true ∧
    hasDefsFunction (initializeProj4 s).windowProj4 = true ∧
    (∀ cd ∈ commonProjections,
      lookupDef (initializeProj4 s).registry cd.1 = some cd.2) := by
  have he : ensureProj4 s = { windowProj4 := .proj4Fn, registry := s.registry } := by
    simp [ensureProj4, hbroken, hasDefsFunction]
  exact ⟨by rw [he], by rw [he]; rfl, by rw [he]; rfl, by rw [he],
    rfl, rfl, lookupDef_registerDefs_commonProjections s.registry⟩

/-- C8 (witness): the detect-and-repair theorem evaluated on the state in
which `window.proj4` is absent and the table empty. -/
theorem proj4_detect_and_repair_witness :
    (ensureProj4 { windowProj4 := .absent, registry := [] }).windowProj4 =
      Proj4Value.proj4Fn ∧
    hasDefsFunction (initializeProj4
      { windowProj4 := .absent, registry := [] }).windowProj4 = true :=
  ⟨(proj4_detect_and_repair { windowProj4 := .absent, registry := [] } rfl).1,
   (proj4_detect_and_repair { windowProj4 := .absent, registry := [] }
     rfl).2.2.2.2.2.1⟩

/-! ## WMTS capability documents and export blobs -/

/-- `needle` occurs verbatim inside `haystack`. -/
def SubstringOf (needle haystack : String) : Prop :=
  ∃ before after, haystack = before ++ needle ++ after

/-- A substring occurrence descends to an infix of the character lists. -/
theorem SubstringOf.data {needle haystack : String}
    (h : SubstringOf needle haystack) : needle.data <:+: haystack.data := by
  obtain ⟨b, a, rfl⟩ := h
  exact ⟨b.data, a.data, by simp [String.data_append]⟩

/-- Text of the template in `exportWMTS` before the first interpolation
(src/components/MapViewer.tsx lines 287-297), ending with the indentation of
the layer-title line. -/
def wmtsHeaderChunk : String :=
  "<?xml version=\"1.0\" encoding=\"UTF-8\"?>\n        <Capabilities xmlns=\"http://www.opengis.net/wmts/1.0\" \n                    xmlns:ows=\"http://www.opengis.net/ows/1.1\" \n                    version=\"1.0.0\">\n          <ows:ServiceIdentification>\n            <ows:Title>GeoTIFF Visualizer WMTS</ows:Title>\n            <ows:ServiceType>OGC WMTS</ows:ServiceType>\n            <ows:ServiceTypeVersion>1.0.0</ows:ServiceTypeVersion>\n          </ows:ServiceIdentification>\n          <Contents>\n            <Layer>\n              "

/-- The newline-plus-indentation between consecutive layer elements of the
`exportWMTS` template. -/
def wmtsMidChunk : String := "\n              "

/-- Text of the `exportWMTS` template after the last interpolation. -/
def wmtsTailChunk : String :=
  "\n            </Layer>\n          </Contents>\n        </Capabilities>"

/-- The WMTS capabilities document built inline by `exportWMTS`
(src/components/MapViewer.tsx lines 287-304) from the export options:
`fileName` is interpolated as the layer title and identifier, and the
`minZoom` / `maxZoom` slider values as the scale-denominator bounds. -/
def wmtsCapabilities (fileName : String) (minZoom maxZoom : Nat) : String :=
  wmtsHeaderChunk ++
  "<ows:Title>" ++ fileName ++ "</ows:Title>" ++ wmtsMidChunk ++
  "<ows:Identifier>" ++ fileName ++ "</ows:Identifier>" ++ wmtsMidChunk ++
  "<MinScaleDenominator>" ++ toString minZoom ++ "</MinScaleDenominator>" ++ wmtsMidChunk ++
  "<MaxScaleDenominator>" ++ toString maxZoom ++ "</MaxScaleDenominator>" ++
  wmtsTailChunk

/-- Text of the `generateWMTSCapabilities` template before the first
interpolation (src/services/ProcessingService.ts lines 138-149). -/
def serviceHeaderChunk : String :=
  "<?xml version=\"1.0\" encoding=\"UTF-8\"?>\n      <Capabilities xmlns=\"http://www.opengis.net/wmts/1.0\" \n                  xmlns:ows=\"http://www.opengis.net/ows/1.1\" \n                  version=\"1.0.0\">\n        <ows:ServiceIdentification>\n          <ows:Title>GeoTIFF Visualizer WMTS</ows:Title>\n          <ows:ServiceType>OGC WMTS</ows:ServiceType>\n          <ows:ServiceTypeVersion>1.0.0</ows:ServiceTypeVersion>\n        </ows:ServiceIdentification>\n        <Contents>\n          <Layer>\n            "

/-- The newline-plus-indentation between the two layer elements of the
`generateWMTSCapabilities` template. -/
def serviceMidChunk : String := "\n            "

/-- Text of the `generateWMTSCapabilities` template after the last
interpolation, including the placeholder comment where further layer
information would go. -/
def serviceTailChunk : String :=
  "\n            <!-- Additional layer information would go here -->\n          </Layer>\n        </Contents>\n      </Capabilities>"

/-- `ProcessingService.generateWMTSCapabilities`
(src/services/ProcessingService.ts lines 136-155): takes only the layer
name; the document carries no scale-denominator elements. -/
def generateWMTSCapabilities (layerName : String) : String :=
  serviceHeaderChunk ++
  "<ows:Title>" ++ layerName ++ "</ows:Title>" ++ serviceMidChunk ++
  "<ows:Identifier>" ++ layerName ++ "</ows:Identifier>" ++
  serviceTailChunk

/-- A byte blob as produced by `new Blob([data], { type })`: the bytes of the
parts and the declared media type. -/
structure JsBlob where
  content : List Nat
  mediaType : String
deriving DecidableEq, Repr

/-- `ProcessingService.exportAsMBTiles` (ProcessingService.ts lines 123-127):
a placeholder that wraps the input bytes unchanged in an
`application/octet-stream` blob. -/
def exportAsMBTiles (data : List Nat) : JsBlob :=
  { content := data, mediaType := "application/octet-stream" }

/-- `ProcessingService.exportAsTileDirectory` (ProcessingService.ts lines
130-133): a placeholder that wraps the input bytes unchanged in an
`application/zip` blob. -/
def exportAsTileDirectory (data : List Nat) : JsBlob :=
  { content := data, mediaType := "application/zip" }

/-- Download filename derived by `exportMBTiles` in MapViewer.tsx. -/
def mbtilesDownloadName (fileName : String) : String :=
  fileName ++ ".mbtiles"

/-- Download filename derived by `exportTileDirectory` in MapViewer.tsx. -/
def tileDirectoryDownloadName (fileName : String) (minZoom maxZoom : Nat) : String :=
  fileName ++ "_tiles_" ++ toString minZoom ++ "-" ++ toString maxZoom ++ ".zip"

/-- A substring occurrence bounds the per-character counts. -/
theorem SubstringOf.count_le {needle haystack : String} (c : Char)
    (h : SubstringOf needle haystack) :
    needle.data.count c ≤ haystack.data.count c :=
  h.data.sublist.count_le c

/-! ## C9: the WMTS capabilities documents -/

set_option maxRecDepth 8000 in
/-- C9 (counterexample).  The capabilities document produced by
`ProcessingService.generateWMTSCapabilities` contains no scale-denominator
element at all (it does not even take the zoom range as input): neither
`MinScaleDenominator` nor `MaxScaleDenominator` occurs in its output for the
default layer name. -/
theorem generateWMTSCapabilities_lacks_scale_denominators :
    ¬ SubstringOf "<MinScaleDenominator>" (generateWMTSCapabilities "export") ∧
    ¬ SubstringOf "<MaxScaleDenominator>" (generateWMTSCapabilities "export") := by
  refine ⟨fun h => ?_, fun h => ?_⟩ <;>
  · have h2 := h.count_le 'D'
    revert h2
    decide

/-- C9 (amended).  The WMTS capabilities document built by the map viewer's
`exportWMTS` contains the layer name as both the `ows:Title` and the
`ows:Identifier` element content and carries the minimum and maximum zoom
levels as the `MinScaleDenominator` and `MaxScaleDenominator` values, for
every layer name and zoom range; the `ProcessingService` generator contains
the layer name as title and identifier but emits no scale-denominator
bounds. -/
theorem wmtsCapabilities_layer_fields (fileName : String) (minZoom maxZoom : Nat) :
    SubstringOf ("<ows:Title>" ++ fileName ++ "</ows:Title>")
      (wmtsCapabilities fileName minZoom maxZoom) ∧
    SubstringOf ("<ows:Identifier>" ++ fileName ++ "</ows:Identifier>")
      (wmtsCapabilities fileName minZoom maxZoom) ∧
    SubstringOf ("<MinScaleDenominator>" ++ toString minZoom ++ "</MinScaleDenominator>")
      (wmtsCapabilities fileName minZoom maxZoom) ∧
    SubstringOf ("<MaxScaleDenominator>" ++ toString maxZoom ++ "</MaxScaleDenominator>")
      (wmtsCapabilities fileName minZoom maxZoom) ∧
    SubstringOf ("<ows:Title>" ++ fileName ++ "</ows:Title>")
      (generateWMTSCapabilities fileName) ∧
    SubstringOf ("<ows:Identifier>" ++ fileName ++ "</ows:Identifier>")
      (generateWMTSCapabilities fileName) := by
  refine ⟨⟨wmtsHeaderChunk,
      wmtsMidChunk ++ "<ows:Identifier>" ++ fileName ++ "</ows:Identifier>" ++
        wmtsMidChunk ++ "<MinScaleDenominator>" ++ toString minZoom ++
        "</MinScaleDenominator>" ++ wmtsMidChunk ++ "<MaxScaleDenominator>" ++
        toString maxZoom ++ "</MaxScaleDenominator>" ++ wmtsTailChunk, ?_⟩,
    ⟨wmtsHeaderChunk ++ "<ows:Title>" ++ fileName ++ "</ows:Title>" ++ wmtsMidChunk,
      wmtsMidChunk ++ "<MinScaleDenominator>" ++ toString minZoom ++
        "</MinScaleDenominator>" ++ wmtsMidChunk ++ "<MaxScaleDenominator>" ++
        toString maxZoom ++ "</MaxScaleDenominator>" ++ wmtsTailChunk, ?_⟩,
    ⟨wmtsHeaderChunk ++ "<ows:Title>" ++ fileName ++ "</ows:Title>" ++ wmtsMidChunk ++
        "<ows:Identifier>" ++ fileName ++ "</ows:Identifier>" ++ wmtsMidChunk,
      wmtsMidChunk ++ "<MaxScaleDenominator>" ++ toString maxZoom ++
        "</MaxScaleDenominator>" ++ wmtsTailChunk, ?_⟩,
    ⟨wmtsHeaderChunk ++ "<ows:Title>" ++ fileName ++ "</ows:Title>" ++ wmtsMidChunk ++
        "<ows:Identifier>" ++ fileName ++ "</ows:Identifier>" ++ wmtsMidChunk ++
        "<MinScaleDenominator>" ++ toString minZoom ++ "</MinScaleDenominator>" ++
        wmtsMidChunk, wmtsTailChunk, ?_⟩,
    ⟨serviceHeaderChunk,
      serviceMidChunk ++ "<ows:Identifier>" ++ fileName ++ "</ows:Identifier>" ++
        serviceTailChunk, ?_⟩,
    ⟨serviceHeaderChunk ++ "<ows:Title>" ++ fileName ++ "</ows:Title>" ++
        serviceMidChunk, serviceTailChunk, ?_⟩⟩ <;>
    simp only [wmtsCapabilities, generateWMTSCapabilities, String.append_assoc]

/-! ## C10: byte-identity of the placeholder exports -/

/-- C10.  The MBTiles and tile-directory exports are byte-identity
placeholders: each returns a blob whose content is exactly the input bytes,
and the two differ only in the declared media type
(`application/octet-stream` for MBTiles, `application/zip` for the tile
directory) — their contents are always equal. -/
theorem export_placeholders_byte_identity (data : List Nat) :
    (exportAsMBTiles data).content = data ∧
    (exportAsTileDirectory data).content = data ∧
    (exportAsMBTiles data).content = (exportAsTileDirectory data).content ∧
    (exportAsMBTiles data).mediaType = "application/octet-stream" ∧
    (exportAsTileDirectory data).mediaType = "application/zip" ∧
    (exportAsMBTiles data).mediaType ≠ (exportAsTileDirectory data).mediaType ∧
    exportAsMBTiles data =
      { content := (exportAsTileDirectory data).content,
        mediaType := "application/octet-stream" } :=
  ⟨rfl, rfl, rfl, rfl, rfl,
    by
      show ("application/octet-stream" : String) ≠ "application/zip"
      decide,
    rfl⟩
